import Mathlib

/-!
Verification of the RAG chatbot backend described in the repository's
implementation guide (FastAPI `main.py`, `vector_store.py`, `rag_engine.py`,
`document_processor.py`, and the Docusaurus `ChatWidget.jsx`).

The Python/JS code is shallowly embedded: pure string/list manipulation is
translated directly; the external hosted services (Qdrant, the OpenAI
embeddings and chat APIs, the network) are modelled as explicit parameters
or by their documented client contracts; Python exceptions are modelled with
`Except`.
-/

/-- Values of Python dict entries (JSON-ish), used to mirror the dict
literals the backend builds for search results and sources. -/
inductive Val where
  | str (s : String)
  | num (q : ℚ)
  | dict (entries : List (String × Val))

/-- Payload stored with each Qdrant point, mirroring the dict built in
`VectorStore.add_documents` (vector_store.py lines 275-281): keys
`content`, `title`, `url`, `module`, `chapter`. -/
structure Payload where
  content : String
  title : String
  url : String
  moduleName : String
  chapter : String
deriving DecidableEq

/-- Point in the Qdrant collection (`PointStruct`: id, vector, payload). -/
structure Point where
  id : String
  vector : List ℚ
  payload : Payload
deriving DecidableEq

/-- Scored hit returned by the Qdrant client's `search` call. -/
structure SearchHit where
  point : Point
  score : ℚ
deriving DecidableEq

/-- Descending-score order used by Qdrant when returning cosine-similarity
hits (higher similarity first). -/
def scoreDesc : SearchHit → SearchHit → Prop := fun a b => b.score ≤ a.score

instance : DecidableRel scoreDesc := fun a b =>
  inferInstanceAs (Decidable (b.score ≤ a.score))

instance : IsTotal SearchHit scoreDesc :=
  ⟨fun a b => le_total b.score a.score⟩

instance : IsTrans SearchHit scoreDesc :=
  ⟨fun _ _ _ h1 h2 => le_trans h2 h1⟩

/-- Modelled from the Qdrant client contract (external service, not in this
repository): `search` scores every stored point against the query vector,
returns them in non-increasing score order and truncates to `limit`.  The
similarity measure (cosine) is abstracted as the parameter `sim`. -/
def qdrantSearch (sim : List ℚ → List ℚ → ℚ) (store : List Point)
    (queryVector : List ℚ) (limit : ℕ) : List SearchHit :=
  (List.insertionSort scoreDesc
    (store.map fun p => ⟨p, sim queryVector p.vector⟩)).take limit

/-- Boolean test whether the store already holds a point with the given id. -/
def containsId (s : List Point) (i : String) : Bool :=
  s.any fun q => q.id == i

/-- Modelled from the Qdrant client contract (external service, not in this
repository): upserting a single point overwrites the stored point with the
same id, or appends the point when its id is new. -/
def upsertOne (p : Point) (s : List Point) : List Point :=
  if containsId s p.id then s.map (fun q => if q.id = p.id then p else q)
  else s ++ [p]

/-- Modelled from the Qdrant client contract: `upsert` applies `upsertOne`
for each point in order. -/
def qdrantUpsert (points : List Point) (s : List Point) : List Point :=
  points.foldl (fun t p => upsertOne p t) s

/-- Collection name default from `VectorStore.__init__` (line 226). -/
def VectorStore.collectionName : String := "physical_ai_textbook"

/-- Embedding dimension configured in `VectorStore.__init__` (line 227):
`self.embedding_dimension = 1536  # OpenAI text-embedding-3-small`. -/
def VectorStore.embeddingDimension : ℕ := 1536

/-- Embedding model requested in `VectorStore.get_embedding` (line 260). -/
def VectorStore.embeddingModelName : String := "text-embedding-3-small"

/-- Vector-collection configuration (`VectorParams(size=..., distance=...)`)
created in `VectorStore.initialize` (lines 249-255). -/
structure VectorParams where
  size : ℕ
  distance : String
deriving DecidableEq

/-- Collection config: size is the configured embedding dimension, cosine
distance (`VectorStore.initialize`, lines 249-255). -/
def VectorStore.collectionVectorsConfig : VectorParams :=
  ⟨VectorStore.embeddingDimension, "Cosine"⟩

/-- Modelled from the OpenAI embeddings API contract (external service):
the dimension of the vector returned for each embedding model. -/
def openAIEmbeddingDim (model : String) : ℕ :=
  if model = "text-embedding-3-small" then 1536
  else if model = "text-embedding-3-large" then 3072
  else if model = "text-embedding-ada-002" then 1536
  else 0

/-- Result-dict built for each hit by `VectorStore.search`
(vector_store.py lines 320-332): keys `content`, `title`, `url`, `score`,
`metadata` (the latter a nested dict with `module` and `chapter`). -/
def SearchHit.toDict (h : SearchHit) : List (String × Val) :=
  [("content", Val.str h.point.payload.content),
   ("title", Val.str h.point.payload.title),
   ("url", Val.str h.point.payload.url),
   ("score", Val.num h.score),
   ("metadata", Val.dict
     [("module", Val.str h.point.payload.moduleName),
      ("chapter", Val.str h.point.payload.chapter)])]

/-- Hits produced by `VectorStore.search` (lines 290-318): embed the query
text, then ask Qdrant for the top `limit` hits.  The hosted embedding call
is the parameter `embed`. -/
def VectorStore.searchHits (embed : String → List ℚ)
    (sim : List ℚ → List ℚ → ℚ) (store : List Point)
    (query : String) (limit : ℕ) : List SearchHit :=
  qdrantSearch sim store (embed query) limit

/-- Full `VectorStore.search` (lines 290-332): the Qdrant hits mapped to
the result dicts. -/
def VectorStore.search (embed : String → List ℚ)
    (sim : List ℚ → List ℚ → ℚ) (store : List Point)
    (query : String) (limit : ℕ) : List (List (String × Val)) :=
  (VectorStore.searchHits embed sim store query limit).map SearchHit.toDict

/-- Fallible variant of the search pipeline: `get_embedding` is a network
call and may raise; the exception propagates out of `search` (there is no
try/except inside `VectorStore.search`). -/
def VectorStore.searchE (embed : String → Except String (List ℚ))
    (sim : List ℚ → List ℚ → ℚ) (store : List Point)
    (query : String) (limit : ℕ) : Except String (List SearchHit) :=
  (embed query).map fun qv => qdrantSearch sim store qv limit

/-- Score field of a result dict, as a caller would read `hit['score']`. -/
def dictScore (d : List (String × Val)) : ℚ :=
  match d.lookup "score" with
  | some (Val.num q) => q
  | _ => 0

/-- Document dict produced by `DocumentProcessor.process_url` /
`process_docusaurus_markdown` for each chunk (lines 576-588): id is
`f"{url}_{i}"`. -/
structure Document where
  id : String
  content : String
  title : String
  url : String
  moduleName : String
  chapter : String
deriving DecidableEq

/-- Conversion used inside `VectorStore.add_documents` (lines 269-283):
each document dict becomes a `PointStruct` with the embedding of its
content and the payload fields. -/
def Document.toPoint (embed : String → List ℚ) (d : Document) : Point :=
  ⟨d.id, embed d.content, ⟨d.content, d.title, d.url, d.moduleName, d.chapter⟩⟩

/-- Full `VectorStore.add_documents` (lines 265-288): embed every document
and upsert the resulting points into the collection. -/
def VectorStore.addDocuments (embed : String → List ℚ)
    (docs : List Document) (store : List Point) : List Point :=
  qdrantUpsert (docs.map (Document.toPoint embed)) store

/-- Number of stored points tagged with a given source url. -/
def countByUrl (u : String) (s : List Point) : ℕ :=
  (s.filter fun p => p.payload.url == u).length

/-- Chunk size default from `DocumentProcessor.__init__` (line 529). -/
def DocumentProcessor.chunkSize : ℕ := 1000

/-- Chunk overlap default from `DocumentProcessor.__init__` (line 529). -/
def DocumentProcessor.chunkOverlap : ℕ := 200

/-- Accumulating splitter behind `pySplit`: collects maximal runs of
non-whitespace characters. -/
def splitWordsAux : List Char → List Char → List String
  | [], acc => if acc.isEmpty then [] else [String.mk acc.reverse]
  | c :: rest, acc =>
    if c.isWhitespace then
      if acc.isEmpty then splitWordsAux rest []
      else String.mk acc.reverse :: splitWordsAux rest []
    else splitWordsAux rest (c :: acc)

/-- Model of Python `str.split()` with no argument (used at line 600):
split on whitespace runs, discarding empty fragments. -/
def pySplit (s : String) : List String := splitWordsAux s.data []

/-- Loop of `DocumentProcessor._chunk_text` (lines 603-607): while
`i < len(words)`, emit `' '.join(words[i:i + chunk_size])` and advance `i`
by `chunk_size - chunk_overlap`.  The recursion is bounded by an explicit
fuel so the definition is structural; since the index advances by at least
one per iteration when `0 < step`, a fuel of `words.length` is always
sufficient, and the `0 < step` guard only rules out Python's
non-terminating `step = 0` case (the source's defaults give `step = 800`). -/
def chunkAux (words : List String) (size step : ℕ) : ℕ → ℕ → List String
  | _, 0 => []
  | i, fuel + 1 =>
    if i < words.length ∧ 0 < step then
      String.intercalate " " ((words.drop i).take size) ::
        chunkAux words size step (i + step) fuel
    else []

/-- Full `DocumentProcessor._chunk_text` (lines 598-609) at the default
configuration `chunk_size = 1000`, `chunk_overlap = 200` used by the
engine's `DocumentProcessor()`. -/
def DocumentProcessor.chunkText (text : String) : List String :=
  chunkAux (pySplit text) DocumentProcessor.chunkSize
    (DocumentProcessor.chunkSize - DocumentProcessor.chunkOverlap) 0
    (pySplit text).length

/-- Chunk-to-document mapping of `DocumentProcessor.process_url`
(lines 572-588); the fetched page text and extracted metadata are inputs
(the HTTP fetch and HTML parsing are external I/O). -/
def DocumentProcessor.processText (url title moduleName chapter : String)
    (text : String) : List Document :=
  (DocumentProcessor.chunkText text).mapIdx fun i chunk =>
    ⟨url ++ "_" ++ toString i, chunk, title, url, moduleName, chapter⟩

/-- Chat message dict (`{"role": ..., "content": ...}`). -/
structure Message where
  role : String
  content : String
deriving DecidableEq

/-- System prompt chosen by `RAGEngine._get_system_prompt` (lines 457-475),
branching only on whether the query is about selected text. -/
def RAGEngine.getSystemPrompt (isSelectedText : Bool) : String :=
  if isSelectedText then
    "You are an expert teaching assistant for the Physical AI & Humanoid Robotics course.\nThe user has selected specific text from the textbook and is asking about it.\nAnswer their question based ONLY on the selected text provided.\nBe clear, concise, and educational. If the selected text doesn\x27t contain enough information to answer fully, say so."
  else
    "You are an expert teaching assistant for the Physical AI & Humanoid Robotics course.\nThis course covers:\n- Module 1: ROS 2 (Robot Operating System)\n- Module 2: Gazebo & Unity simulation\n- Module 3: NVIDIA Isaac platform\n- Module 4: Vision-Language-Action (VLA) models\n\nUse the provided context from the textbook to answer questions accurately.\nProvide clear explanations suitable for students learning robotics and AI.\nReference specific modules or sections when relevant.\nIf you\x27re not certain about something, acknowledge it."

/-- User-message content built by `RAGEngine._format_query`
(lines 477-492). -/
def RAGEngine.formatQuery (question context : String) (isSelected : Bool) : String :=
  if isSelected then
    "Selected Text:\n" ++ context ++ "\n\nQuestion: " ++ question ++
      "\n\nPlease answer based on the selected text above."
  else
    "Context from textbook:\n" ++ context ++ "\n\nQuestion: " ++ question ++
      "\n\nPlease provide a helpful answer based on the context above."

/-- Python truthiness of an `Optional[str]`: `None` and `""` are falsy. -/
def pyTruthy (o : Option String) : Bool :=
  match o with
  | some s => !s.isEmpty
  | none => false

/-- History window added by `RAGEngine.query` (lines 431-433):
`if conversation_history: messages.extend(conversation_history[-5:])`.
Python `xs[-5:]` is `drop (length - 5)`. -/
def RAGEngine.historyWindow (history : List Message) : List Message :=
  if history.isEmpty then [] else history.drop (history.length - 5)

/-- Message list assembled by `RAGEngine.query` (lines 423-439): system
prompt, then up to the last five history messages, then the formatted
user query. -/
def RAGEngine.buildMessages (isSelected : Bool) (context question : String)
    (history : List Message) : List Message :=
  ⟨"system", RAGEngine.getSystemPrompt isSelected⟩ ::
    (RAGEngine.historyWindow history ++
      [⟨"user", RAGEngine.formatQuery question context isSelected⟩])

/-- Result dict returned by `RAGEngine.query` (lines 451-455), plus the
bookkeeping flag `retrievalPerformed` recording that the vector-store
branch (lines 400-421) executed. -/
structure QueryResult where
  answer : String
  sources : List (List (String × Val))
  contextUsed : Bool
  retrievalPerformed : Bool

/-- Full `RAGEngine.query` (lines 382-455).  The hosted embedding call and
the hosted chat-completion call are fallible parameters (`Except`); the
method contains no try/except, so their failures propagate.  When
`selected_text` is truthy the selected-text branch (lines 395-399) runs:
no embedding and no vector search happen. -/
def RAGEngine.query (embed : String → Except String (List ℚ))
    (sim : List ℚ → List ℚ → ℚ)
    (llm : List Message → Except String String) (store : List Point)
    (question : String) (selectedText : Option String)
    (history : List Message) : Except String QueryResult :=
  if pyTruthy selectedText then
    let s := selectedText.getD ""
    let sources : List (List (String × Val)) :=
      [[("type", Val.str "selected_text"), ("content", Val.str (s.take 200))]]
    (llm (RAGEngine.buildMessages true s question history)).map fun answer =>
      ⟨answer, sources, true, false⟩
  else
    (VectorStore.searchE embed sim store question 5).bind fun hits =>
      let context := String.intercalate "\n\n" (hits.map fun h =>
        "[Source: " ++ h.point.payload.title ++ "]\n" ++ h.point.payload.content)
      let sources := hits.map fun h =>
        [("title", Val.str h.point.payload.title),
         ("url", Val.str h.point.payload.url),
         ("excerpt", Val.str (h.point.payload.content.take 200)),
         ("relevance_score", Val.num h.score)]
      (llm (RAGEngine.buildMessages false context question history)).map
        fun answer => ⟨answer, sources, false, true⟩

/-- Request body of `POST /api/query` (`QueryRequest`, main.py 123-127). -/
structure QueryRequest where
  question : String
  selectedText : Option String
  contextUrl : Option String
  conversationHistory : List Message

/-- HTTP response produced by the endpoint: on success a JSON body with
`answer`, `sources`, `context_used`; on failure a 500 with a `detail`
field and no `answer` field. -/
structure HttpResponse where
  status : ℕ
  answer : Option String
  sources : Option (List (List (String × Val)))
  contextUsed : Option Bool
  detail : Option String

/-- Endpoint handler `query_textbook` for `POST /api/query`
(main.py lines 158-173).  The handler takes the parsed body only and
performs no header inspection and no authentication; the `headers`
argument of the model is therefore ignored, mirroring the source.  Any
exception from the engine is converted to HTTP 500 with detail
`"Query processing failed: ..."`. -/
def queryTextbook (embed : String → Except String (List ℚ))
    (sim : List ℚ → List ℚ → ℚ)
    (llm : List Message → Except String String) (store : List Point)
    (headers : List (String × String)) (req : QueryRequest) : HttpResponse :=
  match RAGEngine.query embed sim llm store req.question req.selectedText
      req.conversationHistory with
  | .ok r => ⟨200, some r.answer, some r.sources, some r.contextUsed, none⟩
  | .error e => ⟨500, none, none, none, some ("Query processing failed: " ++ e)⟩

/-- Fixed fallback text appended by the widget's catch branch
(ChatWidget.jsx lines 720-728). -/
def ChatWidget.errorFallbackText : String :=
  "Sorry, I encountered an error. Please try again."

/-- Client-visible assistant text for one turn (`ChatWidget.sendMessage`,
lines 695-728): on a network/parse failure the catch branch shows the
fixed fallback text; otherwise the widget displays `data.answer`, which is
absent (`undefined`, rendered as nothing) when the backend answered 500
with only a `detail` field. -/
def ChatWidget.showTurn (networkFailed : Bool) (resp : HttpResponse) :
    Option String :=
  if networkFailed then some ChatWidget.errorFallbackText else resp.answer

/-! Concrete fixtures shared by several witnesses and counterexamples. -/

/-- Total embedding stub used in concrete scenarios. -/
def embedT : String → List ℚ := fun _ => [1]

/-- Successful fallible embedding stub. -/
def embedOk : String → Except String (List ℚ) := fun _ => .ok [1]

/-- Similarity stub scoring every pair zero. -/
def simZero : List ℚ → List ℚ → ℚ := fun _ _ => 0

/-- Hosted-LLM stub returning a fixed completion. -/
def llmEcho : List Message → Except String String := fun _ => .ok "General answer."

/-- Sample stored point for concrete scenarios. -/
def pt1 : Point := ⟨"u_0", [1], ⟨"ROS 2 is a middleware.", "Intro", "u", "module-1", "ros2"⟩⟩

/-- Sample chat request without selected text and without an API key. -/
def req0 : QueryRequest := ⟨"What is ROS 2?", none, none, []⟩

/-- Boolean string prefix test over the character lists. -/
def strStartsWith (s p : String) : Bool := p.data.isPrefixOf s.data

/-- Sample document for ingestion scenarios. -/
def doc1 : Document := ⟨"u_0", "ROS 2 basics.", "Intro", "u", "module-1", "ros2"⟩

/-- Second sample document with a distinct id but the same source url. -/
def doc2 : Document := ⟨"u_1", "Gazebo basics.", "Intro", "u", "module-1", "ros2"⟩

/-- Stale point sharing the url of `doc1` but not its id. -/
def stalePt : Point := ⟨"u_5", [1], ⟨"old chunk", "Intro", "u", "module-1", "ros2"⟩⟩

/-- Text of 801 two-character words: its first chunk (1000-word window) is
all 801 words, 2402 characters long. -/
def longText : String := String.intercalate " " (List.replicate 801 "ab")

/-- Character tail of the `"ab ab ... ab"` pattern: `n` repetitions of
space-a-b. -/
def tailChars : ℕ → List Char
  | 0 => []
  | n + 1 => ' ' :: 'a' :: 'b' :: tailChars n

/-- Boolean substring test over the character lists. -/
def containsSub (s sub : String) : Bool := s.data.tails.any fun t => sub.data.isPrefixOf t

/-! Claim C5 -/

/-- Claim C5, counterexample: the embedding dimension the backend
configures (and which the collection uses) is 1536, not 768 — the claim
that every embedding is a vector of exactly 768 floats is false for this
code. -/
theorem c5_counterexample : VectorStore.embeddingDimension ≠ 768 := by decide

/-- Claim C5, amended: the embedding operation (OpenAI
`text-embedding-3-small`) returns vectors of exactly 1536 floats, and this
dimension matches the dimension configured for the vector-store
collection. -/
theorem c5_amended :
    openAIEmbeddingDim VectorStore.embeddingModelName
        = VectorStore.embeddingDimension ∧
    VectorStore.collectionVectorsConfig.size = VectorStore.embeddingDimension ∧
    VectorStore.embeddingDimension = 1536 := by
  decide

/-! Claim C4 -/

set_option maxRecDepth 8000 in
/-- Claim C4, counterexample: a POST to the chat endpoint with no
`X-API-Key` header (empty header list) is not rejected with 401 — it is
answered 200 and the vector store is consulted (the response carries a
retrieval source with a relevance score). -/
theorem c4_counterexample :
    queryTextbook embedOk simZero llmEcho [pt1] [] req0 =
      ⟨200, some "General answer.",
        some [[("title", Val.str "Intro"), ("url", Val.str "u"),
               ("excerpt", Val.str "ROS 2 is a middleware."),
               ("relevance_score", Val.num 0)]],
        some false, none⟩ ∧ (200 : ℕ) ≠ 401 := by
  exact ⟨rfl, by decide⟩

/-- Claim C4, amended: the chat endpoint (`POST /api/query`; no `/api/chat`
route exists) performs no API-key validation at all: its response is
independent of the request headers, and its status is never 401 (it is 200
on success and 500 on engine failure). -/
theorem c4_amended (embed : String → Except String (List ℚ))
    (sim : List ℚ → List ℚ → ℚ) (llm : List Message → Except String String)
    (store : List Point) (headers headers2 : List (String × String))
    (req : QueryRequest) :
    queryTextbook embed sim llm store headers req =
      queryTextbook embed sim llm store headers2 req ∧
    (queryTextbook embed sim llm store headers req).status ≠ 401 := by
  refine ⟨rfl, ?_⟩
  unfold queryTextbook
  cases RAGEngine.query embed sim llm store req.question req.selectedText
      req.conversationHistory <;> simp

/-! Claim C7 -/

/-- Claim C7, counterexample: when the embedding call inside the vector
search throws, `RAGEngine.query` has no try/except — the exception
propagates to the endpoint, which surfaces HTTP 500 to the user instead of
degrading to a disclaimer path and completing the turn. -/
theorem c7_counterexample :
    queryTextbook (fun _ => .error "qdrant unavailable") simZero llmEcho
        [pt1] [] req0 =
      ⟨500, none, none, none,
        some "Query processing failed: qdrant unavailable"⟩ := rfl

/-- Claim C7, amended: for every user message without selected text, if the
embedding call the vector search depends on throws, the failure propagates
out of `RAGEngine.query` unchanged and the endpoint answers HTTP 500 with
detail `"Query processing failed: ..."`; there is no fallback to a
no-context disclaimer path. -/
theorem c7_amended (e : String) (sim : List ℚ → List ℚ → ℚ)
    (llm : List Message → Except String String) (store : List Point)
    (headers : List (String × String)) (q : String) (hist : List Message) :
    queryTextbook (fun _ => .error e) sim llm store headers
        ⟨q, none, none, hist⟩ =
      ⟨500, none, none, none, some ("Query processing failed: " ++ e)⟩ := rfl

/-! Claim C9 -/

/-- Claim C9, confirmed: when a non-empty `selected_text` is provided, the
engine performs no embedding call and no vector-store search (the result is
the same for any embedding function, any similarity and any store —
including a failing embedding service), the selected text alone becomes the
context, `context_used` is true, and `sources` is exactly one
`selected_text` entry holding the first 200 characters. -/
theorem c9_selected_text_bypasses_retrieval
    (embed embed2 : String → Except String (List ℚ))
    (sim sim2 : List ℚ → List ℚ → ℚ)
    (llm : List Message → Except String String) (store store2 : List Point)
    (q s : String) (hist : List Message) (hs : s ≠ "") :
    RAGEngine.query embed sim llm store q (some s) hist =
      (llm (RAGEngine.buildMessages true s q hist)).map (fun a =>
        ⟨a, [[("type", Val.str "selected_text"),
              ("content", Val.str (s.take 200))]], true, false⟩) ∧
    RAGEngine.query embed sim llm store q (some s) hist =
      RAGEngine.query embed2 sim2 llm store2 q (some s) hist := by
  have h1 : s.isEmpty = false := by
    cases h2 : s.isEmpty
    · rfl
    · exact absurd ((String.isEmpty_iff s).mp h2) hs
  have ht : pyTruthy (some s) = true := by simp [pyTruthy, h1]
  constructor <;> simp [RAGEngine.query, ht]

/-- Claim C9, witness: with selected text `"ROS 2"`, the engine's result is
identical whether the embedding service works or always throws and whether
the store holds a point or is empty — retrieval is never touched. -/
theorem c9_witness :
    RAGEngine.query embedOk simZero llmEcho [pt1] "Explain" (some "ROS 2") [] =
      RAGEngine.query (fun _ => .error "down") simZero llmEcho []
        "Explain" (some "ROS 2") [] :=
  (c9_selected_text_bypasses_retrieval embedOk (fun _ => .error "down")
    simZero simZero llmEcho [pt1] [] "Explain" "ROS 2" [] (by decide)).2

/-! Claim C10 -/

/-- Claim C10, confirmed: the message list sent to the LLM is the system
prompt, then at most the 5 most recent history messages (a suffix of the
supplied history, hence in their original order), then the user message —
regardless of how long the history is. -/
theorem c10_history_window (isSel : Bool) (ctx q : String)
    (hist : List Message) :
    RAGEngine.buildMessages isSel ctx q hist =
      ⟨"system", RAGEngine.getSystemPrompt isSel⟩ ::
        (hist.drop (hist.length - 5) ++
          [⟨"user", RAGEngine.formatQuery q ctx isSel⟩]) ∧
    (hist.drop (hist.length - 5)).length ≤ 5 ∧
    hist.drop (hist.length - 5) <:+ hist := by
  refine ⟨?_, ?_, List.drop_suffix _ _⟩
  · unfold RAGEngine.buildMessages RAGEngine.historyWindow
    cases hist <;> simp
  · rw [List.length_drop]
    omega

/-! Claim C3 -/

set_option maxRecDepth 8000 in
/-- Claim C3, counterexample: a query against an empty store does not get a
disclaimer prompt.  The engine proceeds with the same retrieval-style
prompt — the user message still opens with "Context from textbook:" (the
context is merely empty), the system prompt is the standard one and never
mentions a disclaimer, and the chat answer is whatever the model returns
(here a stub completion with no disclaimer). -/
theorem c3_counterexample :
    RAGEngine.query embedOk simZero llmEcho [] "What is Physical AI?" none [] =
      .ok ⟨"General answer.", [], false, true⟩ ∧
    strStartsWith (RAGEngine.formatQuery "What is Physical AI?" "" false)
        "Context from textbook:" = true ∧
    containsSub (RAGEngine.getSystemPrompt false) "disclaimer" = false := by
  exact ⟨rfl, by decide, by decide⟩

set_option maxRecDepth 8000 in
/-- Claim C3, amended: when retrieval returns zero chunks (here: the store
is empty), the orchestration does not branch — it builds the same
context-style prompt with an empty context block (the user message still
begins with "Context from textbook:"), uses the standard system prompt
(which contains no disclaimer instruction), returns `sources = []` and
`context_used = false`, and the answer is whatever the model produces, with
no disclaimer imposed. -/
theorem c3_amended (embed : String → List ℚ) (sim : List ℚ → List ℚ → ℚ)
    (llm : List Message → Except String String) (q : String)
    (hist : List Message) :
    RAGEngine.query (fun t => .ok (embed t)) sim llm [] q none hist =
      (llm (RAGEngine.buildMessages false "" q hist)).map
        (fun a => ⟨a, [], false, true⟩) ∧
    strStartsWith (RAGEngine.formatQuery q "" false)
        "Context from textbook:" = true ∧
    containsSub (RAGEngine.getSystemPrompt false) "disclaimer" = false := by
  refine ⟨rfl, ?_, by decide⟩
  have hforms : RAGEngine.formatQuery q "" false =
      ((("Context from textbook:\n" ++ "") ++ "\n\nQuestion: ") ++ q) ++
        "\n\nPlease provide a helpful answer based on the context above." := rfl
  have hX : "Context from textbook:".data <+:
      (("Context from textbook:\n" ++ "") ++ "\n\nQuestion: ").data :=
    List.isPrefixOf_iff_prefix.mp (by decide)
  rw [hforms]
  unfold strStartsWith
  rw [String.data_append, String.data_append]
  exact List.isPrefixOf_iff_prefix.mpr
    ((hX.trans (List.prefix_append _ _)).trans (List.prefix_append _ _))

/-! Claim C8 -/

/-- Claim C8, counterexample: when the hosted LLM call fails, the final
client-visible text is NOT a partial text followed by an error-note suffix.
The LLM call is non-streaming (a single `create`), its exception propagates
to an HTTP 500 whose JSON body has only a `detail` field, and the widget
then renders `data.answer`, i.e. nothing at all — in particular the visible
text does not extend any partial output such as "Hello". -/
theorem c8_counterexample :
    (queryTextbook embedOk simZero (fun _ => .error "connection reset")
        [pt1] [] req0).status = 500 ∧
    ChatWidget.showTurn false
      (queryTextbook embedOk simZero (fun _ => .error "connection reset")
        [pt1] [] req0) = none ∧
    strStartsWith ((ChatWidget.showTurn false
      (queryTextbook embedOk simZero (fun _ => .error "connection reset")
        [pt1] [] req0)).getD "") "Hello" = false := by
  exact ⟨rfl, rfl, by decide⟩

/-- Claim C8, amended: the hosted LLM call is non-streaming, so no partial
response ever reaches the client.  When the call fails, the endpoint
answers HTTP 500 whose body carries only a `detail` message, and the
widget's turn shows no answer text at all (the fixed apology text appears
only on network/parse failures); nothing is appended to partial output. -/
theorem c8_amended (e : String) (embed : String → List ℚ)
    (sim : List ℚ → List ℚ → ℚ) (store : List Point)
    (headers : List (String × String)) (q : String) (sel : Option String)
    (hist : List Message) :
    queryTextbook (fun t => .ok (embed t)) sim (fun _ => .error e) store
        headers ⟨q, sel, none, hist⟩ =
      ⟨500, none, none, none, some ("Query processing failed: " ++ e)⟩ ∧
    ChatWidget.showTurn false
      (queryTextbook (fun t => .ok (embed t)) sim (fun _ => .error e) store
        headers ⟨q, sel, none, hist⟩) = none ∧
    ChatWidget.showTurn true
      (queryTextbook (fun t => .ok (embed t)) sim (fun _ => .error e) store
        headers ⟨q, sel, none, hist⟩) = some ChatWidget.errorFallbackText := by
  have hq : RAGEngine.query (fun t => .ok (embed t)) sim (fun _ => .error e)
      store q sel hist = .error e := by
    unfold RAGEngine.query
    cases pyTruthy sel <;> simp [VectorStore.searchE, Except.map, Except.bind]
  refine ⟨?_, ?_, ?_⟩ <;>
    simp [queryTextbook, hq, ChatWidget.showTurn]

/-! Claim C1 -/

/-- Reading the `score` entry of a result dict recovers the hit's score. -/
theorem dictScore_toDict (h : SearchHit) : dictScore h.toDict = h.score := rfl

/-- Claim C1, counterexample: each dict returned by `VectorStore.search`
carries exactly the keys `content`, `title`, `url`, `score`, `metadata` —
there is no `source_file` annotation, so the claim that every result is
annotated with a `source_file` is false. -/
theorem c1_counterexample :
    (VectorStore.search embedT simZero [pt1] "q" 1).map (List.map Prod.fst) =
      [["content", "title", "url", "score", "metadata"]] ∧
    "source_file" ∉ ["content", "title", "url", "score", "metadata"] := by
  exact ⟨rfl, by decide⟩

/-- Claim C1, amended: `search(q, k)` returns at most `k` results in
non-increasing score order, each annotated with `content`, `title`, `url`,
`score` and `metadata` (rather than `source_file`). -/
theorem c1_amended (embed : String → List ℚ) (sim : List ℚ → List ℚ → ℚ)
    (store : List Point) (q : String) (k : ℕ) :
    (VectorStore.search embed sim store q k).length ≤ k ∧
    (VectorStore.search embed sim store q k).Chain'
      (fun a b => dictScore b ≤ dictScore a) ∧
    ∀ d ∈ VectorStore.search embed sim store q k,
      d.map Prod.fst = ["content", "title", "url", "score", "metadata"] := by
  refine ⟨?_, ?_, ?_⟩
  · simp only [VectorStore.search, VectorStore.searchHits, qdrantSearch,
      List.length_map]
    exact List.length_take_le _ _
  · have hs : List.Sorted scoreDesc (List.insertionSort scoreDesc
        (store.map fun p => ⟨p, sim (embed q) p.vector⟩)) :=
      List.sorted_insertionSort scoreDesc _
    have ht : List.Pairwise scoreDesc ((List.insertionSort scoreDesc
        (store.map fun p => ⟨p, sim (embed q) p.vector⟩)).take k) :=
      hs.sublist (List.take_sublist _ _)
    have hm : List.Pairwise (fun a b => dictScore b ≤ dictScore a)
        (((List.insertionSort scoreDesc
          (store.map fun p => ⟨p, sim (embed q) p.vector⟩)).take k).map
            SearchHit.toDict) := by
      rw [List.pairwise_map]
      exact ht.imp (fun hab => by
        rw [dictScore_toDict, dictScore_toDict]; exact hab)
    exact hm.chain'
  · intro d hd
    simp only [VectorStore.search, List.mem_map] at hd
    obtain ⟨h, _, rfl⟩ := hd
    rfl

/-- Claim C1, amended witness: on a concrete one-point store with `k = 1`,
the search result has at most one element and that element carries exactly
the five result keys. -/
theorem c1_amended_witness :
    (VectorStore.search embedT simZero [pt1] "q" 1).length ≤ 1 ∧
    (SearchHit.toDict ⟨pt1, 0⟩).map Prod.fst =
      ["content", "title", "url", "score", "metadata"] := by
  have e : VectorStore.search embedT simZero [pt1] "q" 1 =
      [SearchHit.toDict ⟨pt1, 0⟩] := rfl
  exact ⟨(c1_amended embedT simZero [pt1] "q" 1).1,
    (c1_amended embedT simZero [pt1] "q" 1).2.2 _
      (e ▸ List.mem_singleton.mpr rfl)⟩

/-! Claim C6: lemmas about the id-keyed upsert semantics. -/

/-- After upserting `p`, every stored point carrying the id of `p` is `p`
itself. -/
theorem upsertOne_entries (p : Point) (s : List Point) :
    ∀ q ∈ upsertOne p s, q.id = p.id → q = p := by
  intro q hq hid
  unfold upsertOne at hq
  split at hq
  · rw [List.mem_map] at hq
    obtain ⟨r, hr, rfl⟩ := hq
    by_cases h : r.id = p.id
    · rw [if_pos h]
    · rw [if_neg h] at hid ⊢
      exact absurd hid h
  · rename_i hc
    rw [List.mem_append] at hq
    rcases hq with hq | hq
    · exfalso
      apply hc
      unfold containsId
      rw [List.any_eq_true]
      exact ⟨q, hq, by simp [hid]⟩
    · simpa using hq

/-- Upserting `p` makes the store contain the id of `p`. -/
theorem upsertOne_contains_self (p : Point) (s : List Point) :
    containsId (upsertOne p s) p.id = true := by
  unfold upsertOne
  split
  · rename_i hc
    unfold containsId at hc ⊢
    rw [List.any_eq_true] at hc ⊢
    obtain ⟨r, hr, hrid⟩ := hc
    refine ⟨if r.id = p.id then p else r, List.mem_map_of_mem _ hr, ?_⟩
    by_cases h : r.id = p.id
    · simp [h]
    · exact absurd (by simpa using hrid) h
  · unfold containsId
    rw [List.any_eq_true]
    exact ⟨p, List.mem_append_right _ (List.mem_singleton.mpr rfl), by simp⟩

/-- Upserting never removes an id already present in the store. -/
theorem upsertOne_keeps (p : Point) (s : List Point) (j : String)
    (hj : containsId s j = true) : containsId (upsertOne p s) j = true := by
  unfold upsertOne
  split
  · unfold containsId at hj ⊢
    rw [List.any_eq_true] at hj ⊢
    obtain ⟨r, hr, hrid⟩ := hj
    refine ⟨if r.id = p.id then p else r, List.mem_map_of_mem _ hr, ?_⟩
    by_cases h : r.id = p.id
    · simp only [if_pos h, beq_iff_eq]
      rw [← h]
      simpa using hrid
    · simp only [if_neg h]
      exact hrid
  · unfold containsId at hj ⊢
    rw [List.any_eq_true] at hj ⊢
    obtain ⟨r, hr, hrid⟩ := hj
    exact ⟨r, List.mem_append_left _ hr, hrid⟩

/-- Upserting a point with a different id preserves the invariant that
every stored point with id `j` equals `x`. -/
theorem upsertOne_pres_entries (r : Point) (j : String) (x : Point)
    (hr : r.id ≠ j) (t : List Point)
    (h : ∀ q ∈ t, q.id = j → q = x) :
    ∀ q ∈ upsertOne r t, q.id = j → q = x := by
  intro q hq hid
  unfold upsertOne at hq
  split at hq
  · rw [List.mem_map] at hq
    obtain ⟨w, hw, rfl⟩ := hq
    by_cases hcase : w.id = r.id
    · rw [if_pos hcase] at hid ⊢
      exact absurd hid hr
    · rw [if_neg hcase] at hid ⊢
      exact h w hw hid
  · rw [List.mem_append] at hq
    rcases hq with hq | hq
    · exact h q hq hid
    · have hqr : q = r := by simpa using hq
      subst hqr
      exact absurd hid hr

/-- Folded version of `upsertOne_pres_entries` over a batch none of whose
points carries id `j`. -/
theorem qdrantUpsert_pres_entries (ps : List Point) (j : String) (x : Point)
    (hps : ∀ p ∈ ps, p.id ≠ j) :
    ∀ t : List Point, (∀ q ∈ t, q.id = j → q = x) →
      ∀ q ∈ qdrantUpsert ps t, q.id = j → q = x := by
  induction ps with
  | nil => intro t ht; exact ht
  | cons a rest ih =>
    intro t ht
    have step : qdrantUpsert (a :: rest) t = qdrantUpsert rest (upsertOne a t) := rfl
    rw [step]
    exact ih (fun p hp => hps p (List.mem_cons_of_mem _ hp)) _
      (upsertOne_pres_entries a j x (hps a (List.mem_cons_self _ _)) t ht)

/-- Folded id preservation: ids present before an upsert batch stay
present. -/
theorem qdrantUpsert_keeps (ps : List Point) (j : String) :
    ∀ t : List Point, containsId t j = true →
      containsId (qdrantUpsert ps t) j = true := by
  induction ps with
  | nil => intro t ht; exact ht
  | cons a rest ih =>
    intro t ht
    exact ih _ (upsertOne_keeps a t j ht)

/-- After a batch upsert, every id of the batch is present. -/
theorem qdrantUpsert_contains (ps : List Point) :
    ∀ (t : List Point) (p : Point), p ∈ ps →
      containsId (qdrantUpsert ps t) p.id = true := by
  induction ps with
  | nil => intro t p hp; exact absurd hp (List.not_mem_nil p)
  | cons a rest ih =>
    intro t p hp
    rcases List.mem_cons.mp hp with h | h
    · subst h
      exact qdrantUpsert_keeps rest p.id _ (upsertOne_contains_self p t)
    · exact ih _ p h

/-- After a batch upsert with pairwise-distinct ids, each stored point with
the id of a batch point is that batch point. -/
theorem qdrantUpsert_entries (ps : List Point)
    (hnd : (ps.map Point.id).Nodup) :
    ∀ (t : List Point) (p : Point), p ∈ ps →
      ∀ q ∈ qdrantUpsert ps t, q.id = p.id → q = p := by
  induction ps with
  | nil => intro t p hp; exact absurd hp (List.not_mem_nil p)
  | cons a rest ih =>
    intro t p hp
    have hnd2 : a.id ∉ rest.map Point.id ∧ (rest.map Point.id).Nodup := by
      rw [List.map_cons, List.nodup_cons] at hnd
      exact hnd
    rcases List.mem_cons.mp hp with h | h
    · subst h
      have hrest : ∀ r ∈ rest, r.id ≠ p.id := by
        intro r hr hcontra
        exact hnd2.1 (List.mem_map.mpr ⟨r, hr, hcontra⟩)
      exact qdrantUpsert_pres_entries rest p.id p hrest _
        (upsertOne_entries p t)
    · exact ih hnd2.2 _ p h

/-- Upserting a point that is already stored (same id, same value) leaves
the store unchanged. -/
theorem upsertOne_fixed (p : Point) (t : List Point)
    (hc : containsId t p.id = true)
    (h : ∀ q ∈ t, q.id = p.id → q = p) : upsertOne p t = t := by
  unfold upsertOne
  rw [if_pos hc]
  have hcongr : ∀ q ∈ t, (if q.id = p.id then p else q) = q := by
    intro q hq
    by_cases hcase : q.id = p.id
    · rw [if_pos hcase, h q hq hcase]
    · rw [if_neg hcase]
  calc t.map (fun q => if q.id = p.id then p else q) = t.map id :=
        List.map_congr_left hcongr
    _ = t := List.map_id t

/-- A batch upsert whose points are all already stored verbatim is a
no-op. -/
theorem qdrantUpsert_fixed (ps : List Point) :
    ∀ t : List Point,
      (∀ p ∈ ps, containsId t p.id = true ∧ ∀ q ∈ t, q.id = p.id → q = p) →
      qdrantUpsert ps t = t := by
  induction ps with
  | nil => intro t _; rfl
  | cons a rest ih =>
    intro t h
    have ha := h a (List.mem_cons_self _ _)
    have hfix : upsertOne a t = t := upsertOne_fixed a t ha.1 ha.2
    have step : qdrantUpsert (a :: rest) t = qdrantUpsert rest (upsertOne a t) := rfl
    rw [step, hfix]
    exact ih t (fun p hp => h p (List.mem_cons_of_mem _ hp))

/-- Claim C6, counterexample: upserting chunks does NOT replace existing
entries tagged with the same source file.  A stale point with the same url
`"u"` as the incoming document but a different point id survives
`add_documents` untouched (replacement is id-keyed; the payload carries no
`source_file` tag, only `url`). -/
theorem c6_counterexample :
    (VectorStore.addDocuments embedT [doc1] [stalePt]).map Point.id =
      ["u_5", "u_0"] ∧
    stalePt ∈ VectorStore.addDocuments embedT [doc1] [stalePt] ∧
    stalePt.payload.url = doc1.url := by
  refine ⟨rfl, ?_, rfl⟩
  have e : VectorStore.addDocuments embedT [doc1] [stalePt] =
      [stalePt, Document.toPoint embedT doc1] := rfl
  rw [e]
  exact List.mem_cons_self _ _

/-- Claim C6, amended: Qdrant replaces entries by point id, not by source
file; since an unchanged content directory produces the same documents with
the same ids (`url_i`), running the full ingestion pass twice yields
exactly the same store as running it once — in particular the same number
of stored chunks per source file (no duplicates). -/
theorem c6_amended (embed : String → List ℚ) (docs : List Document)
    (s : List Point) (hnd : (docs.map Document.id).Nodup) :
    VectorStore.addDocuments embed docs
        (VectorStore.addDocuments embed docs s) =
      VectorStore.addDocuments embed docs s ∧
    ∀ u, countByUrl u (VectorStore.addDocuments embed docs
        (VectorStore.addDocuments embed docs s)) =
      countByUrl u (VectorStore.addDocuments embed docs s) := by
  have hids : ((docs.map (Document.toPoint embed)).map Point.id) =
      docs.map Document.id := by
    rw [List.map_map]; rfl
  have hnd2 : ((docs.map (Document.toPoint embed)).map Point.id).Nodup := by
    rw [hids]; exact hnd
  have hmain : qdrantUpsert (docs.map (Document.toPoint embed))
      (qdrantUpsert (docs.map (Document.toPoint embed)) s) =
      qdrantUpsert (docs.map (Document.toPoint embed)) s := by
    apply qdrantUpsert_fixed
    intro p hp
    exact ⟨qdrantUpsert_contains _ s p hp,
      qdrantUpsert_entries _ hnd2 s p hp⟩
  exact ⟨hmain, fun u => congrArg (countByUrl u) hmain⟩

/-- Claim C6, amended witness: ingesting two concrete documents twice into
an empty store gives the same store as ingesting them once. -/
theorem c6_amended_witness :
    ([doc1, doc2].map Document.id).Nodup ∧
    VectorStore.addDocuments embedT [doc1, doc2]
        (VectorStore.addDocuments embedT [doc1, doc2] []) =
      VectorStore.addDocuments embedT [doc1, doc2] [] :=
  ⟨by decide, (c6_amended embedT [doc1, doc2] [] (by decide)).1⟩

/-! Claim C2 -/

/-- Every chunk emitted by the `_chunk_text` loop is the space-join of a
nonempty block of at most `size` consecutive words of the input. -/
theorem chunkAux_mem (words : List String) (size step : ℕ) (hsize : 0 < size) :
    ∀ (fuel i : ℕ) (c : String), c ∈ chunkAux words size step i fuel →
      ∃ ws : List String, ws ≠ [] ∧ ws.length ≤ size ∧ ws <:+: words ∧
        c = String.intercalate " " ws := by
  intro fuel
  induction fuel with
  | zero => intro i c hc; exact absurd hc (List.not_mem_nil c)
  | succ fuel ih =>
    intro i c hc
    rw [chunkAux] at hc
    split at hc
    · rename_i h
      rcases List.mem_cons.mp hc with hc1 | hc2
      · refine ⟨(words.drop i).take size, ?_, ?_, ?_, hc1⟩
        · have hpos : 0 < ((words.drop i).take size).length := by
            rw [List.length_take, List.length_drop]
            omega
          exact List.length_pos.mp hpos
        · rw [List.length_take]
          exact min_le_left _ _
        · exact ⟨words.take i, (words.drop i).drop size, by
            rw [List.append_assoc, List.take_append_drop, List.take_append_drop]⟩
      · exact ih (i + step) c hc2
    · exact absurd hc (List.not_mem_nil c)

/-- Claim C2, amended: `_chunk_text` is a word-count chunker, not a
character-count chunker — every produced chunk is the space-join of a
nonempty block of at most `chunk_size = 1000` consecutive words of the
split text; chunk character lengths are not confined to [200, 2000]. -/
theorem c2_amended (text : String) :
    ∀ c ∈ DocumentProcessor.chunkText text,
      ∃ ws : List String, ws ≠ [] ∧ ws.length ≤ DocumentProcessor.chunkSize ∧
        ws <:+: pySplit text ∧ c = String.intercalate " " ws :=
  fun c hc => chunkAux_mem (pySplit text) DocumentProcessor.chunkSize
    (DocumentProcessor.chunkSize - DocumentProcessor.chunkOverlap)
    (by decide) (pySplit text).length 0 c hc

/-- Claim C2, amended witness: the single chunk of a two-word text is the
join of a nonempty block of at most 1000 consecutive words. -/
theorem c2_amended_witness :
    "hello world" ∈ DocumentProcessor.chunkText "hello world" ∧
    ∃ ws : List String, ws ≠ [] ∧ ws.length ≤ DocumentProcessor.chunkSize ∧
      ws <:+: pySplit "hello world" ∧
      "hello world" = String.intercalate " " ws :=
  ⟨by decide, c2_amended "hello world" "hello world" (by decide)⟩

/-- Character count of the repeated tail. -/
theorem tailChars_length (n : ℕ) : (tailChars n).length = 3 * n := by
  induction n with
  | zero => rfl
  | succ n ih =>
    show (tailChars n).length + 1 + 1 + 1 = 3 * (n + 1)
    omega

/-- Character data of the accumulator loop of `String.intercalate` on
repeated `"ab"` words. -/
theorem intercalate_go_data (n : ℕ) : ∀ acc : String,
    (String.intercalate.go acc " " (List.replicate n "ab")).data =
      acc.data ++ tailChars n := by
  induction n with
  | zero =>
    intro acc
    show acc.data = acc.data ++ tailChars 0
    rw [show tailChars 0 = [] from rfl, List.append_nil]
  | succ n ih =>
    intro acc
    show (String.intercalate.go (acc ++ " " ++ "ab") " "
        (List.replicate n "ab")).data = acc.data ++ tailChars (n + 1)
    rw [ih, String.data_append, String.data_append, List.append_assoc,
      List.append_assoc]
    rfl

/-- Character data of `n + 1` space-joined copies of `"ab"`. -/
theorem intercalate_ab_data (n : ℕ) :
    (String.intercalate " " (List.replicate (n + 1) "ab")).data =
      'a' :: 'b' :: tailChars n := by
  show (String.intercalate.go "ab" " " (List.replicate n "ab")).data = _
  rw [intercalate_go_data]
  rfl

/-- Splitting the repeated tail with a nonempty accumulator flushes the
accumulated word and yields one `"ab"` per repetition. -/
theorem splitWordsAux_tailChars (n : ℕ) : ∀ acc : List Char, acc ≠ [] →
    splitWordsAux (tailChars n) acc =
      String.mk acc.reverse :: List.replicate n "ab" := by
  induction n with
  | zero =>
    intro acc hacc
    cases acc with
    | nil => exact absurd rfl hacc
    | cons c cs => rfl
  | succ n ih =>
    intro acc hacc
    cases acc with
    | nil => exact absurd rfl hacc
    | cons c cs =>
      show String.mk (c :: cs).reverse ::
          splitWordsAux (tailChars n) ('b' :: 'a' :: []) = _
      rw [ih ('b' :: 'a' :: []) (by simp), List.replicate_succ]
      rfl

/-- Two non-whitespace characters move from the input into the
accumulator. -/
theorem splitWordsAux_ab_step (t acc : List Char) :
    splitWordsAux ('a' :: 'b' :: t) acc = splitWordsAux t ('b' :: 'a' :: acc) :=
  rfl

/-- Character data of `longText`. -/
theorem longText_data : longText.data = 'a' :: 'b' :: tailChars 800 :=
  intercalate_ab_data 800

/-- Python-style split of `longText` recovers the 801 words. -/
theorem pySplit_longText : pySplit longText = List.replicate 801 "ab" := by
  show splitWordsAux longText.data [] = _
  rw [longText_data, splitWordsAux_ab_step,
    splitWordsAux_tailChars 800 ('b' :: 'a' :: []) (by simp)]
  rfl

/-- Dropping as many elements as the leading copies leaves the remaining
copies. -/
theorem drop_replicate_add {α : Type} (a : α) :
    ∀ n m : ℕ, (List.replicate (n + m) a).drop n = List.replicate m a := by
  intro n
  induction n with
  | zero => intro m; rw [Nat.zero_add, List.drop_zero]
  | succ n ih =>
    intro m
    rw [show n + 1 + m = (n + m) + 1 from by omega, List.replicate_succ,
      List.drop_succ_cons, ih]

/-- Unfolding of one productive iteration of the chunking loop. -/
theorem chunkAux_step (words : List String) (size step i fuel : ℕ)
    (h : i < words.length ∧ 0 < step) :
    chunkAux words size step i (fuel + 1) =
      String.intercalate " " ((words.drop i).take size) ::
        chunkAux words size step (i + step) fuel := by
  rw [chunkAux, if_pos h]

/-- Once the index passes the word count the loop yields nothing,
whatever fuel remains. -/
theorem chunkAux_out (words : List String) (size step i : ℕ)
    (h : ¬(i < words.length ∧ 0 < step)) :
    ∀ fuel, chunkAux words size step i fuel = [] := by
  intro fuel
  cases fuel with
  | zero => rfl
  | succ fuel => rw [chunkAux, if_neg h]

/-- Chunking an 801-word text with the default configuration gives the
whole text as the first window and the 800-word-offset remainder as the
second, independently of the surplus fuel. -/
theorem chunkAux_two (words : List String) (hlen : words.length = 801)
    (fuel : ℕ) :
    chunkAux words 1000 800 0 (fuel + 2) =
      [String.intercalate " " words,
       String.intercalate " " (words.drop 800)] := by
  rw [show fuel + 2 = (fuel + 1) + 1 from rfl]
  rw [chunkAux_step _ _ _ _ _ (by rw [hlen]; omega)]
  rw [chunkAux_step _ _ _ _ _ (by rw [hlen]; omega)]
  rw [chunkAux_out _ _ _ _ (by rw [hlen]; omega)]
  rw [List.drop_zero, List.take_of_length_le (by rw [hlen]; omega),
    Nat.zero_add, List.take_of_length_le (by rw [List.length_drop, hlen]; omega)]

/-- Chunking `longText` produces exactly two chunks: the whole 801-word
text, then the one-word overlap remainder. -/
theorem chunkText_longText :
    DocumentProcessor.chunkText longText = [longText, "ab"] := by
  show chunkAux (pySplit longText) 1000 800 0 (pySplit longText).length = _
  rw [pySplit_longText, List.length_replicate]
  have e := chunkAux_two (List.replicate 801 "ab")
    (by rw [List.length_replicate]) 799
  rw [show (List.replicate 801 "ab").drop 800 = ["ab"] from by
    rw [show List.replicate 801 "ab" = List.replicate (800 + 1) "ab" from rfl,
      drop_replicate_add]
    rfl] at e
  exact e

/-- Character count of a string is the length of its character data. -/
theorem string_length_eq_data_length (s : String) : s.length = s.data.length := by
  cases s
  rfl

/-- Claim C2, counterexample: processing `longText` yields two chunks, and
the FIRST (hence non-final) chunk is 2402 characters long — far above the
claimed [200, 2000] bound, and not covered by the final-chunk-of-a-short-
file exception. -/
theorem c2_counterexample :
    (DocumentProcessor.chunkText longText).length = 2 ∧
    2000 < ((DocumentProcessor.chunkText longText).getD 0 "").length := by
  rw [chunkText_longText]
  refine ⟨rfl, ?_⟩
  rw [List.getD_cons_zero, string_length_eq_data_length, longText_data,
    List.length_cons, List.length_cons, tailChars_length]
  omega
